import Mathlib

/-!
Shallow embedding of the IP-Nexus network measurement and classification core:
the vpn-detect edge function (anomaly classifier + HTTP handler), the identity
resolver `fetchIPData` from `Index.tsx`, and the `SpeedTest` bandwidth
estimator.  Network effects are modelled by passing each fetch outcome in
explicitly; machine floats are modelled by exact rationals (all values the
claims touch stay exactly representable in double precision).
-/

namespace IPNexus

/-! ### Anomaly classifier (supabase/functions/vpn-detect/index.ts) -/

/-- The `data.security` object of an ipwho.is response.  Each flag is an
optional boolean exactly as in the provider JSON; an absent field is `none`. -/
structure SecurityObj where
  is_proxy : Option Bool
  is_vpn : Option Bool
  is_tor : Option Bool
  is_relay : Option Bool
deriving DecidableEq

/-- The `data.connection` object of an ipwho.is response. -/
structure ConnectionObj where
  is_proxy : Option Bool
  isp_hosting : Option Bool
  org : Option String
deriving DecidableEq

/-- The parsed ipwho.is payload, restricted to the fields the classifier
reads: the optional nested `security` and `connection` objects. -/
structure IpwhoisData where
  security : Option SecurityObj
  connection : Option ConnectionObj
deriving DecidableEq

/-- JavaScript `x === true` applied to an optionally chained boolean field:
true exactly when the chain resolved to the value `true`. -/
def eqTrue (o : Option Bool) : Bool := o == some true

/-- JavaScript truthiness of an optionally chained boolean field: `undefined`
and `false` are falsy, `true` is truthy. -/
def truthy (o : Option Bool) : Bool := o.getD false

/-- The `isVpn` constant of the vpn-detect function: logical OR of the four
security-layer flags and the connection-layer proxy flag, each compared with
`=== true` through optional chaining. -/
def isVpn (data : IpwhoisData) : Bool :=
  eqTrue (data.security.bind SecurityObj.is_proxy) ||
  eqTrue (data.security.bind SecurityObj.is_vpn) ||
  eqTrue (data.security.bind SecurityObj.is_tor) ||
  eqTrue (data.security.bind SecurityObj.is_relay) ||
  eqTrue (data.connection.bind ConnectionObj.is_proxy)

/-- The `vpnType` constant of the vpn-detect function: a conditional chain on
the truthiness of the four security-layer flags, most severe first. -/
def vpnType (data : IpwhoisData) : String :=
  if truthy (data.security.bind SecurityObj.is_tor) then "Tor Network"
  else if truthy (data.security.bind SecurityObj.is_vpn) then "VPN"
  else if truthy (data.security.bind SecurityObj.is_proxy) then "Proxy"
  else if truthy (data.security.bind SecurityObj.is_relay) then "Relay"
  else "None Detected"

/-- Disjunction of the four security-layer flags (truthiness), used to state
which inputs yield a category other than `None Detected`. -/
def securityAnyFlag (data : IpwhoisData) : Bool :=
  truthy (data.security.bind SecurityObj.is_tor) ||
  truthy (data.security.bind SecurityObj.is_vpn) ||
  truthy (data.security.bind SecurityObj.is_proxy) ||
  truthy (data.security.bind SecurityObj.is_relay)

/-- Modelled from the spec: the category label is the label of the
highest-precedence true flag in the fixed order Tor > Vpn > Proxy > Relay,
and `None Detected` when all four are false.  Written as a first-match scan
over the severity-ordered list, to be compared with `vpnType`. -/
def specCategory (tor vpn proxy relay : Bool) : String :=
  match ([(tor, "Tor Network"), (vpn, "VPN"),
          (proxy, "Proxy"), (relay, "Relay")].find? (fun p => p.1)) with
  | some p => p.2
  | none => "None Detected"

/-! ### Identity resolver (`fetchIPData` in src/pages/Index.tsx) -/

/-- JavaScript `a || b` where `a` is an optionally present string: an absent
value and the empty string are both falsy and fall through to `b`. -/
def jsOrStr (a : Option String) (b : String) : String :=
  match a with
  | none => b
  | some s => if s = "" then b else s

/-- JavaScript `a || b` on optionally present numbers: an absent value and 0
are falsy; when `a` is falsy the result is `b` itself, whatever it is. -/
def jsOrNum (a : Option ℚ) (b : Option ℚ) : Option ℚ :=
  match a with
  | none => b
  | some q => if q = 0 then b else some q

/-- Truthiness of an optionally present number: absent and 0 are falsy. -/
def truthyNum (o : Option ℚ) : Bool :=
  match o with
  | none => false
  | some q => q != 0

/-- Parsed body of an ipify lookup: `{ ip: ... }`, with `none` for an absent
(or JSON-null) `ip` field. -/
structure IpJson where
  ip : Option String
deriving DecidableEq

/-- The nested `connection` object of a geolocation payload, as read by the
resolver (`locationData?.connection?.isp`). -/
structure LocConnection where
  isp : Option String
deriving DecidableEq

/-- A parsed geolocation payload, restricted to the keys `fetchIPData`
probes.  Either provider's response is an instance; keys the provider does
not emit are `none`. -/
structure LocationJson where
  country_name : Option String
  country : Option String
  region : Option String
  region_name : Option String
  city : Option String
  org : Option String
  connection : Option LocConnection
  isp : Option String
  latitude : Option ℚ
  longitude : Option ℚ
  lat : Option ℚ
  lon : Option ℚ
deriving DecidableEq

/-- The normalized `LocationData` record built by `fetchIPData` (timestamp
omitted: it carries no claim-relevant information). -/
structure LocationData where
  ipv4 : String
  ipv6 : String
  country : String
  region : String
  city : String
  isp : String
  lat : Option ℚ
  lon : Option ℚ
deriving DecidableEq

/-- The `newData` record literal of `fetchIPData` (Index.tsx lines 63-73):
each field is a JavaScript `||` chain over optionally chained provider keys,
ending in the sentinel (`"Unavailable"` for addresses, an em-dash for
location strings, nothing for coordinates). -/
def newData (ip4Data ip6Data : IpJson) (locationData : Option LocationJson) :
    LocationData :=
  { ipv4 := jsOrStr ip4Data.ip "Unavailable"
    ipv6 := jsOrStr ip6Data.ip "Unavailable"
    country := jsOrStr (locationData.bind LocationJson.country_name)
      (jsOrStr (locationData.bind LocationJson.country) "—")
    region := jsOrStr (locationData.bind LocationJson.region)
      (jsOrStr (locationData.bind LocationJson.region_name) "—")
    city := jsOrStr (locationData.bind LocationJson.city) "—"
    isp := jsOrStr (locationData.bind LocationJson.org)
      (jsOrStr ((locationData.bind LocationJson.connection).bind LocConnection.isp)
        (jsOrStr (locationData.bind LocationJson.isp) "—"))
    lat := jsOrNum (locationData.bind LocationJson.latitude)
      (locationData.bind LocationJson.lat)
    lon := jsOrNum (locationData.bind LocationJson.longitude)
      (locationData.bind LocationJson.lon) }

/-- Outcome of one `fetch(...)` plus `.json()` call as the environment
provides it: `threw` when the request rejected or the body failed to parse
(the code handles both identically through try/catch); otherwise the HTTP
success flag `response.ok` — which this code never inspects — together with
the parsed body. -/
inductive Probe (α : Type) where
  | threw
  | ok (status_ok : Bool) (body : α)
deriving DecidableEq

/-- Whether a probe outcome threw. -/
def Probe.isThrew {α : Type} : Probe α → Bool
  | .threw => true
  | .ok _ _ => false

/-- The four network outcomes one `fetchIPData` run can observe. -/
structure FetchEnv where
  v4 : Probe IpJson
  v6 : Probe IpJson
  primary : Probe LocationJson
  fallback : Probe LocationJson
deriving DecidableEq

/-- Observable result of one `fetchIPData` run: whether the outer catch ran
(error toast, no data committed), the committed record if any, whether the
fallback geolocation provider was contacted, and the argument `detectVPN`
was invoked with, if it was. -/
structure FetchOutcome where
  failed : Bool
  data : Option LocationData
  fallbackInvoked : Bool
  vpnCalledWith : Option String
deriving DecidableEq

/-- The control flow of `fetchIPData`: the v4 and v6 lookups are awaited in
sequence inside one try block, so a throw in either aborts the whole
resolution; the primary geolocation call is wrapped in an inner try whose
catch issues the single fallback call (a fallback throw escapes to the outer
catch); finally `newData` is built and `detectVPN(newData.ipv4)` is invoked
whenever `newData.ipv4` is truthy (a non-empty string). -/
def fetchIPData (env : FetchEnv) : FetchOutcome :=
  match env.v4 with
  | .threw => ⟨true, none, false, none⟩
  | .ok _ ip4Data =>
    match env.v6 with
    | .threw => ⟨true, none, false, none⟩
    | .ok _ ip6Data =>
      match env.primary with
      | .ok _ locationData =>
          let d := newData ip4Data ip6Data (some locationData)
          ⟨false, some d, false, if d.ipv4 ≠ "" then some d.ipv4 else none⟩
      | .threw =>
        match env.fallback with
        | .ok _ locationData =>
            let d := newData ip4Data ip6Data (some locationData)
            ⟨false, some d, true, if d.ipv4 ≠ "" then some d.ipv4 else none⟩
        | .threw => ⟨true, none, true, none⟩

/-- Modelled from the spec: take the first truthy (present, non-empty)
candidate, else the sentinel.  Used to characterize the `||` chains. -/
def firstTruthyStr (candidates : List (Option String)) (sentinel : String) :
    String :=
  match candidates.find? (fun o => !(o.getD "" == "")) with
  | some (some s) => s
  | _ => sentinel

/-! ### Bandwidth estimator (src/utils/speedTest.ts, `class SpeedTest`) -/

/-- JavaScript `Math.round`: round half toward positive infinity.  Stated
with the executable `Rat.floor`; `jsRound_def` below identifies it with the
mathematical floor. -/
def jsRound (x : ℚ) : ℤ := (x + 1 / 2).floor

/-- `Math.round(x * 100) / 100`: round to two decimal places. -/
def roundTo2 (x : ℚ) : ℚ := (jsRound (x * 100) : ℚ) / 100

/-- The raw rate `(bytes * 8 / durationInSeconds) / (1024 * 1024)` shared by
both speed computations. -/
def speedMbpsOf (bytes : ℕ) (durationInSeconds : ℚ) : ℚ :=
  ((bytes : ℚ) * 8 / durationInSeconds) / (1024 * 1024)

/-- The value returned by `measureDownloadSpeed` from its byte and duration
counters: `Math.round(speedMbps * 100) / 100`. -/
def downloadSpeedCalc (receivedBytes : ℕ) (durationInSeconds : ℚ) : ℚ :=
  roundTo2 (speedMbpsOf receivedBytes durationInSeconds)

/-- The value returned by `measureUploadSpeed` from its byte and duration
counters — textually the same arithmetic as the download side. -/
def uploadSpeedCalc (dataSize : ℕ) (durationInSeconds : ℚ) : ℚ :=
  roundTo2 (speedMbpsOf dataSize durationInSeconds)

/-- `SpeedTest.TEST_DURATION = 5000` milliseconds. -/
def TEST_DURATION : ℚ := 5000

/-- `dataSize = 1024 * 1024` bytes: the fixed upload payload size. -/
def dataSize : ℕ := 1024 * 1024

/-- One resolved `reader.read()`: the wall-clock time (ms since `startTime`)
at which it resolved, and its chunk (`none` when `done` with no value). -/
structure ReadEvent where
  time : ℚ
  value : Option ℕ
deriving DecidableEq

/-- State when the download read loop exits: accumulated `receivedBytes`,
the wall-clock time at exit (the `endTime` sample, taken immediately after
the loop), and whether `reader.cancel()` was called. -/
structure DownloadRun where
  receivedBytes : ℕ
  endTime : ℚ
  canceled : Bool
deriving DecidableEq

/-- The `while (!done)` read loop of `measureDownloadSpeed`: each read adds
its chunk length, then the loop cancels and breaks when the wall clock has
passed `TEST_DURATION`, else exits normally when the reader reported done. -/
def readLoop : List ReadEvent → ℕ → DownloadRun
  | [], acc => ⟨acc, 0, false⟩
  | e :: rest, acc =>
      let acc2 := acc + e.value.getD 0
      if TEST_DURATION < e.time then ⟨acc2, e.time, true⟩
      else
        match e.value with
        | none => ⟨acc2, e.time, false⟩
        | some _ => readLoop rest acc2

/-- `SpeedTest.measurePing`: the environment supplies either the measured
round-trip `endTime - startTime` in milliseconds, or `none` when the fetch
threw; the result is `Math.round` of the former, `-1` for the latter. -/
def measurePing (outcome : Option ℚ) : ℤ :=
  match outcome with
  | some rtt => jsRound rtt
  | none => -1

/-- `SpeedTest.measureDownloadSpeed`: the environment supplies the sequence
of resolved reads, or `none` when the fetch (or reader acquisition) threw;
on success the speed is computed from the loop's byte count and its exit
time converted to seconds. -/
def measureDownloadSpeed (outcome : Option (List ReadEvent)) : ℚ :=
  match outcome with
  | none => -1
  | some events =>
      let run := readLoop events 0
      downloadSpeedCalc run.receivedBytes (run.endTime / 1000)

/-- `SpeedTest.measureUploadSpeed`: the environment supplies the round-trip
duration in seconds, or `none` when the POST threw; on success the speed is
computed from the fixed 1 MiB payload and that duration. -/
def measureUploadSpeed (outcome : Option ℚ) : ℚ :=
  match outcome with
  | none => -1
  | some durationInSeconds => uploadSpeedCalc dataSize durationInSeconds

/-- The `SpeedTestResult` interface. -/
structure SpeedTestResult where
  downloadSpeed : ℚ
  uploadSpeed : ℚ
  ping : ℤ
deriving DecidableEq

/-- `SpeedTest.runFullTest`: the three phases run in sequence, each on its
own environment outcome, and the record is assembled from whatever each
returned — a sentinel in one field never affects another. -/
def runFullTest (pingOut : Option ℚ) (dlOut : Option (List ReadEvent))
    (ulOut : Option ℚ) : SpeedTestResult :=
  { downloadSpeed := measureDownloadSpeed dlOut
    uploadSpeed := measureUploadSpeed ulOut
    ping := measurePing pingOut }

/-! ### The vpn-detect HTTP handler -/

/-- Parsed JSON body of a vpn-detect request: the destructured `ip` field,
`none` when absent. -/
structure VpnRequestBody where
  ip : Option String
deriving DecidableEq

/-- An incoming request: an OPTIONS preflight, or a request whose
`req.json()` either throws (`post none`) or yields a body. -/
inductive VpnRequest where
  | options
  | post (body : Option VpnRequestBody)
deriving DecidableEq

/-- The JSON payload of a successful vpn-detect response. -/
structure VpnPayload where
  isVpn : Bool
  vpnType : String
  hosting : Bool
  org : String
deriving DecidableEq

/-- Observable response of the handler: HTTP status, whether the body is an
`{ error: ... }` object, whether the upstream provider fetch was issued, and
the success payload if any. -/
structure VpnResponse where
  status : ℕ
  errorBody : Bool
  upstreamContacted : Bool
  payload : Option VpnPayload
deriving DecidableEq

/-- JavaScript `!ip` on the destructured field: absent or empty is falsy. -/
def jsFalsyStr (o : Option String) : Bool :=
  match o with
  | none => true
  | some s => s == ""

/-- The response payload built on the success path of the handler. -/
def vpnDetectPayload (data : IpwhoisData) : VpnPayload :=
  { isVpn := isVpn data
    vpnType := vpnType data
    hosting := truthy (data.connection.bind ConnectionObj.isp_hosting)
    org := jsOrStr (data.connection.bind ConnectionObj.org) "Unknown" }

/-- The `serve` handler of vpn-detect: OPTIONS preflight is answered
directly; a body-parse throw reaches the catch (status 500); a falsy `ip`
yields status 400 before any upstream contact; otherwise the upstream
provider is fetched, a throw there reaching the catch (status 500) and a
parsed payload yielding the 200 classification response. -/
def vpnDetectHandler (req : VpnRequest) (upstream : Option IpwhoisData) :
    VpnResponse :=
  match req with
  | .options => ⟨200, false, false, none⟩
  | .post none => ⟨500, true, false, none⟩
  | .post (some body) =>
      if jsFalsyStr body.ip then ⟨400, true, false, none⟩
      else
        match upstream with
        | none => ⟨500, true, true, none⟩
        | some data => ⟨200, false, true, some (vpnDetectPayload data)⟩

/-! ### Concrete fixtures used in counterexamples and witnesses -/

/-- A signal bundle with no `security` object and a connection-layer proxy
flag set. -/
def c1Data : IpwhoisData :=
  { security := none
    connection := some { is_proxy := some true, isp_hosting := none, org := none } }

/-- A geolocation payload with every key absent. -/
def emptyLocationJson : LocationJson :=
  ⟨none, none, none, none, none, none, none, none, none, none, none, none⟩

/-- Environment in which the v4 lookup succeeds but its payload has no `ip`
key, the v6 lookup resolves, and the primary geolocation call succeeds. -/
def c4Env : FetchEnv :=
  { v4 := .ok true ⟨none⟩
    v6 := .ok true ⟨some "2001:db8::1"⟩
    primary := .ok true emptyLocationJson
    fallback := .threw }

/-- Environment in which the primary geolocation response carries a
non-success HTTP status but a well-formed JSON body. -/
def c5Env : FetchEnv :=
  { v4 := .ok true ⟨some "203.0.113.7"⟩
    v6 := .ok true ⟨some "2001:db8::1"⟩
    primary := .ok false emptyLocationJson
    fallback := .ok true emptyLocationJson }

/-- A geolocation payload whose only present key is an empty-string
`country_name`. -/
def c6Loc : LocationJson := { emptyLocationJson with country_name := some "" }

/-- Total chunk payload of a list of read events. -/
def chunkBytes (events : List ReadEvent) : ℕ :=
  (events.map (fun e => e.value.getD 0)).sum

/-! ### Helper lemmas -/

/-- `jsRound` is the mathematical floor of `x + 1/2`. -/
theorem jsRound_def (x : ℚ) : jsRound x = ⌊x + 1 / 2⌋ := by
  rw [jsRound, Rat.floor_def', ← Rat.floor_def]

/-- On optional booleans, `=== true` and truthiness agree. -/
theorem eqTrue_eq_truthy (o : Option Bool) : eqTrue o = truthy o := by
  cases o with
  | none => rfl
  | some b => cases b <;> rfl

theorem jsRound_nonneg {x : ℚ} (hx : 0 ≤ x) : 0 ≤ jsRound x := by
  rw [jsRound_def]
  exact Int.le_floor.mpr (by push_cast; linarith)

theorem roundTo2_nonneg {x : ℚ} (hx : 0 ≤ x) : 0 ≤ roundTo2 x := by
  have h : 0 ≤ jsRound (x * 100) := jsRound_nonneg (by linarith)
  unfold roundTo2
  exact div_nonneg (by exact_mod_cast h) (by norm_num)

theorem speedMbpsOf_nonneg (bytes : ℕ) {d : ℚ} (hd : 0 ≤ d) :
    0 ≤ speedMbpsOf bytes d := by
  unfold speedMbpsOf
  exact div_nonneg (div_nonneg (by positivity) hd) (by norm_num)

theorem readLoop_endTime_nonneg (events : List ReadEvent) (acc : ℕ)
    (h : ∀ e ∈ events, 0 ≤ e.time) : 0 ≤ (readLoop events acc).endTime := by
  induction events generalizing acc with
  | nil => simp [readLoop]
  | cons e rest ih =>
    have he := h e (List.mem_cons_self e rest)
    simp only [readLoop]
    split
    · exact he
    · cases hv : e.value with
      | none => simpa [hv] using he
      | some v =>
        simp only [hv]
        exact ih _ (fun x hx => h x (List.mem_cons_of_mem e hx))

/-- The read loop stops at the first read resolving past the ceiling: it
cancels there, keeps the bytes received so far, and never consumes the rest
of the stream. -/
theorem readLoop_cancel_at (pre : List ReadEvent) (e : ReadEvent)
    (post : List ReadEvent) (acc : ℕ)
    (hpre : ∀ x ∈ pre, x.time ≤ TEST_DURATION ∧ x.value.isSome = true)
    (he : TEST_DURATION < e.time) :
    readLoop (pre ++ e :: post) acc
      = ⟨acc + chunkBytes pre + e.value.getD 0, e.time, true⟩ := by
  induction pre generalizing acc with
  | nil => simp [readLoop, chunkBytes, he]
  | cons x rest ih =>
    obtain ⟨hx, hxs⟩ := hpre x (List.mem_cons_self x rest)
    obtain ⟨v, hv⟩ := Option.isSome_iff_exists.mp hxs
    have hnot : ¬ TEST_DURATION < x.time := not_lt.mpr hx
    have hrest : ∀ y ∈ rest, y.time ≤ TEST_DURATION ∧ y.value.isSome = true :=
      fun y hy => hpre y (List.mem_cons_of_mem x hy)
    have hstep : readLoop (x :: rest ++ e :: post) acc
        = readLoop (rest ++ e :: post) (acc + v) := by
      simp [readLoop, hv, hnot]
    rw [hstep, ih (acc + v) hrest]
    have hcb : chunkBytes (x :: rest) = v + chunkBytes rest := by
      simp [chunkBytes, hv]
    rw [hcb, ← Nat.add_assoc]

theorem firstTruthyStr_nil (s : String) : firstTruthyStr [] s = s := rfl

theorem firstTruthyStr_cons (a : Option String) (rest : List (Option String))
    (s : String) :
    firstTruthyStr (a :: rest) s = jsOrStr a (firstTruthyStr rest s) := by
  cases a with
  | none => simp [firstTruthyStr, jsOrStr, List.find?]
  | some v =>
    by_cases hv : v = ""
    · simp [firstTruthyStr, jsOrStr, List.find?, hv]
    · have hb : (v == "") = false := by simp [hv]
      simp [firstTruthyStr, jsOrStr, List.find?, hv, hb]

theorem jsOrNum_eq (a b : Option ℚ) :
    jsOrNum a b = if truthyNum a = true then a else b := by
  cases a with
  | none => rfl
  | some q => by_cases hq : q = 0 <;> simp [jsOrNum, truthyNum, hq]

/-! ### Claim theorems -/

/-- Claim C1, counterexample: the signal bundle whose only set flag is the
connection-layer proxy flag is classified as anonymized (`isVpn = true`)
while its category is still `None Detected`, so `category != None` is not
equivalent to `isAnonymized == true`. -/
theorem claim1_counterexample :
    isVpn c1Data = true ∧ vpnType c1Data = "None Detected" := by decide

/-- Claim C1, amended: the category differs from `None Detected` exactly
when one of the four security-layer flags is truthy, and `isVpn` is that
disjunction together with the connection-layer proxy flag; hence a non-None
category implies `isVpn`, but `isVpn` can hold with category None when only
the connection-layer proxy flag is set. -/
theorem claim1_amended (d : IpwhoisData) :
    (vpnType d = "None Detected" ↔ securityAnyFlag d = false) ∧
    isVpn d = (securityAnyFlag d
      || truthy (d.connection.bind ConnectionObj.is_proxy)) := by
  cases h1 : truthy (d.security.bind SecurityObj.is_tor) <;>
    cases h2 : truthy (d.security.bind SecurityObj.is_vpn) <;>
      cases h3 : truthy (d.security.bind SecurityObj.is_proxy) <;>
        cases h4 : truthy (d.security.bind SecurityObj.is_relay) <;>
          cases h5 : truthy (d.connection.bind ConnectionObj.is_proxy) <;>
            simp [vpnType, isVpn, securityAnyFlag, eqTrue_eq_truthy,
              h1, h2, h3, h4, h5]

/-- Claim C2: `isVpn` is true exactly when at least one of the five
indicator flags resolves to `true` through its optional chain; in
particular it is false when every flag is absent and when every flag is
present but false. -/
theorem claim2_isVpn_or (d : IpwhoisData) :
    (isVpn d = true ↔
      (d.security.bind SecurityObj.is_proxy = some true ∨
       d.security.bind SecurityObj.is_vpn = some true ∨
       d.security.bind SecurityObj.is_tor = some true ∨
       d.security.bind SecurityObj.is_relay = some true ∨
       d.connection.bind ConnectionObj.is_proxy = some true)) ∧
    isVpn { security := none, connection := none } = false ∧
    isVpn { security := some ⟨some false, some false, some false, some false⟩
            connection := some ⟨some false, none, none⟩ } = false := by
  refine ⟨?_, by decide, by decide⟩
  simp only [isVpn, eqTrue, Bool.or_eq_true, beq_iff_eq]
  tauto

/-- Claim C3: the category label equals the label of the highest-precedence
truthy flag in the fixed order Tor > Vpn > Proxy > Relay (first-match scan
over the severity-ordered list), and is `None Detected` when the four
security flags are all false or absent. -/
theorem claim3_vpnType_precedence (d : IpwhoisData) :
    vpnType d = specCategory (truthy (d.security.bind SecurityObj.is_tor))
      (truthy (d.security.bind SecurityObj.is_vpn))
      (truthy (d.security.bind SecurityObj.is_proxy))
      (truthy (d.security.bind SecurityObj.is_relay)) ∧
    vpnType { security := none, connection := none } = "None Detected" := by
  refine ⟨?_, by decide⟩
  cases h1 : truthy (d.security.bind SecurityObj.is_tor) <;>
    cases h2 : truthy (d.security.bind SecurityObj.is_vpn) <;>
      cases h3 : truthy (d.security.bind SecurityObj.is_proxy) <;>
        cases h4 : truthy (d.security.bind SecurityObj.is_relay) <;>
          simp [vpnType, specCategory, List.find?, h1, h2, h3, h4]

/-- Claim C4, counterexample: when the v4 lookup succeeds but yields no ip
field, the committed record's ipv4 is the sentinel, yet `detectVPN` is still
invoked — with the sentinel string as its argument — because the guard only
checks string truthiness and `"Unavailable"` is truthy; classification is
therefore not skipped when no usable IPv4 address was obtained. -/
theorem claim4_counterexample :
    (fetchIPData c4Env).failed = false ∧
    (fetchIPData c4Env).data.map LocationData.ipv4 = some "Unavailable" ∧
    (fetchIPData c4Env).vpnCalledWith = some "Unavailable" := by decide

/-- Claim C4, amended: when the v4 lookup succeeds with a payload lacking an
ip field and the v6 lookup succeeds, the record has ipv4 equal to the
sentinel `"Unavailable"` while ipv6 holds the resolved address — but
classification is still attempted, with the sentinel as its argument; and a
v4 lookup that throws aborts the entire resolution, so the v6 lookup is not
resolved independently of a thrown v4 failure. -/
theorem claim4_amended (s4 s6 sp : Bool) (ip6 : String) (h6 : ip6 ≠ "")
    (loc : LocationJson) (fb : Probe LocationJson) :
    (fetchIPData ⟨.ok s4 ⟨none⟩, .ok s6 ⟨some ip6⟩, .ok sp loc, fb⟩).failed
        = false ∧
    (fetchIPData ⟨.ok s4 ⟨none⟩, .ok s6 ⟨some ip6⟩, .ok sp loc, fb⟩).data.map
        LocationData.ipv4 = some "Unavailable" ∧
    (fetchIPData ⟨.ok s4 ⟨none⟩, .ok s6 ⟨some ip6⟩, .ok sp loc, fb⟩).data.map
        LocationData.ipv6 = some ip6 ∧
    (fetchIPData ⟨.ok s4 ⟨none⟩, .ok s6 ⟨some ip6⟩, .ok sp loc, fb⟩).vpnCalledWith
        = some "Unavailable" ∧
    (∀ env : FetchEnv, env.v4 = Probe.threw →
      fetchIPData env = ⟨true, none, false, none⟩) := by
  refine ⟨?_, ?_, ?_, ?_, ?_⟩
  · simp [fetchIPData, newData, jsOrStr]
  · simp [fetchIPData, newData, jsOrStr]
  · simp [fetchIPData, newData, jsOrStr, h6]
  · simp [fetchIPData, newData, jsOrStr]
  · intro env h4
    obtain ⟨v4, v6, p, f⟩ := env
    cases h4
    rfl

/-- Claim C4, witness for the amended statement at a concrete environment. -/
theorem claim4_witness :
    (fetchIPData c4Env).data.map LocationData.ipv4 = some "Unavailable" ∧
    (fetchIPData c4Env).data.map LocationData.ipv6 = some "2001:db8::1" := by
  have h := claim4_amended true true true "2001:db8::1" (by decide)
    emptyLocationJson .threw
  exact ⟨h.2.1, h.2.2.1⟩

/-- Claim C5, counterexample: a primary geolocation response with a
non-success HTTP status but a parseable JSON body does not trigger the
fallback provider — the code never inspects the status, so this failure
mode is used as-is instead of falling back. -/
theorem claim5_counterexample :
    c5Env.primary = Probe.ok false emptyLocationJson ∧
    (fetchIPData c5Env).fallbackInvoked = false := by decide

/-- Claim C5, amended: once the address lookups have succeeded, the fallback
geolocation provider is invoked (exactly once) precisely when the primary
request throws or its payload fails to parse; a response with a non-success
HTTP status whose body parses is accepted and the fallback is not contacted;
when the primary parses, the fallback is never invoked. -/
theorem claim5_amended (s4 : Bool) (b4 : IpJson) (s6 : Bool) (b6 : IpJson)
    (primary fb : Probe LocationJson) :
    (fetchIPData ⟨.ok s4 b4, .ok s6 b6, primary, fb⟩).fallbackInvoked
      = primary.isThrew := by
  cases primary <;> cases fb <;> rfl

/-- Claim C6, counterexample: a present but empty `country_name` is not
kept — it falls through past the absent `country` candidate to the sentinel
em-dash, so a legitimately empty string is replaced by the sentinel. -/
theorem claim6_counterexample :
    c6Loc.country_name = some "" ∧
    (newData ⟨some "203.0.113.7"⟩ ⟨some "2001:db8::1"⟩ (some c6Loc)).country
      = "—" := by decide

/-- Claim C6, amended: each string field takes the first truthy candidate —
present and non-empty — in the fixed priority order, with the sentinel
em-dash when all candidates are absent or empty (a present empty string is
treated like an absent one); each coordinate takes the first candidate when
it is truthy (present and non-zero) and otherwise the second candidate
as-is, which may be absent. -/
theorem claim6_amended (ip4Data ip6Data : IpJson)
    (locationData : Option LocationJson) :
    (newData ip4Data ip6Data locationData).country
        = firstTruthyStr [locationData.bind LocationJson.country_name,
            locationData.bind LocationJson.country] "—" ∧
    (newData ip4Data ip6Data locationData).region
        = firstTruthyStr [locationData.bind LocationJson.region,
            locationData.bind LocationJson.region_name] "—" ∧
    (newData ip4Data ip6Data locationData).city
        = firstTruthyStr [locationData.bind LocationJson.city] "—" ∧
    (newData ip4Data ip6Data locationData).isp
        = firstTruthyStr [locationData.bind LocationJson.org,
            (locationData.bind LocationJson.connection).bind LocConnection.isp,
            locationData.bind LocationJson.isp] "—" ∧
    (newData ip4Data ip6Data locationData).lat
        = (if truthyNum (locationData.bind LocationJson.latitude) = true
            then locationData.bind LocationJson.latitude
            else locationData.bind LocationJson.lat) ∧
    (newData ip4Data ip6Data locationData).lon
        = (if truthyNum (locationData.bind LocationJson.longitude) = true
            then locationData.bind LocationJson.longitude
            else locationData.bind LocationJson.lon) := by
  refine ⟨?_, ?_, ?_, ?_, ?_, ?_⟩ <;>
    simp [newData, firstTruthyStr_cons, firstTruthyStr_nil, jsOrNum_eq]

/-- Claim C7: both speed computations equal
`(bytes * 8) / elapsedSeconds / (1024 * 1024)` rounded to two decimals with
binary 1024-based conversion, re-computation from the same pair yields the
same value, and 10,000,000 bytes in exactly 2.0 seconds yields 38.15. -/
theorem claim7_speed_formula (bytesReceived : ℕ) (elapsedSeconds : ℚ)
    (_h : 0 < elapsedSeconds) :
    downloadSpeedCalc bytesReceived elapsedSeconds
        = roundTo2 ((bytesReceived : ℚ) * 8 / elapsedSeconds / (1024 * 1024)) ∧
    uploadSpeedCalc bytesReceived elapsedSeconds
        = downloadSpeedCalc bytesReceived elapsedSeconds ∧
    downloadSpeedCalc bytesReceived elapsedSeconds
        = downloadSpeedCalc bytesReceived elapsedSeconds ∧
    roundTo2 (speedMbpsOf bytesReceived elapsedSeconds)
        = (jsRound (speedMbpsOf bytesReceived elapsedSeconds * 100) : ℚ) / 100 ∧
    downloadSpeedCalc 10000000 2 = 3815 / 100 := by
  refine ⟨rfl, rfl, rfl, rfl, ?_⟩
  norm_num [downloadSpeedCalc, roundTo2, speedMbpsOf, jsRound_def]

/-- Claim C7, witness: the golden value at the concrete pair. -/
theorem claim7_witness :
    0 < (2 : ℚ) ∧ downloadSpeedCalc 10000000 2 = 3815 / 100 :=
  ⟨by norm_num, (claim7_speed_formula 10000000 2 (by norm_num)).2.2.2.2⟩

/-- Claim C8: when every read before some read `e` resolves within the
5000 ms ceiling with a chunk, and `e` resolves past the ceiling, the loop
cancels at `e`: it keeps only the bytes received up to and including `e`,
never consumes the rest of the stream, and the computed speed uses the
elapsed time at cancellation (`e.time`), not the time the full stream would
have taken. -/
theorem claim8_download_ceiling (pre : List ReadEvent) (e : ReadEvent)
    (post : List ReadEvent)
    (hpre : ∀ x ∈ pre, x.time ≤ TEST_DURATION ∧ x.value.isSome = true)
    (he : TEST_DURATION < e.time) :
    readLoop (pre ++ e :: post) 0
        = ⟨chunkBytes pre + e.value.getD 0, e.time, true⟩ ∧
    measureDownloadSpeed (some (pre ++ e :: post))
        = downloadSpeedCalc (chunkBytes pre + e.value.getD 0) (e.time / 1000) := by
  have h := readLoop_cancel_at pre e post 0 hpre he
  rw [Nat.zero_add] at h
  exact ⟨h, by simp [measureDownloadSpeed, h]⟩

/-- Claim C8, witness: a stream whose final read would resolve at 5200 ms is
canceled at the 5100 ms read; the speed uses 5100 ms, not 5200 ms. -/
theorem claim8_witness :
    readLoop [⟨3000, some 4000000⟩, ⟨5100, some 1000000⟩, ⟨5200, none⟩] 0
        = ⟨5000000, 5100, true⟩ ∧
    measureDownloadSpeed
        (some [⟨3000, some 4000000⟩, ⟨5100, some 1000000⟩, ⟨5200, none⟩])
        = downloadSpeedCalc 5000000 (5100 / 1000) := by
  have h := claim8_download_ceiling [⟨3000, some 4000000⟩]
    ⟨5100, some 1000000⟩ [⟨5200, none⟩] (by decide) (by decide)
  exact ⟨by simpa [chunkBytes] using h.1, by simpa [chunkBytes] using h.2⟩

/-- Claim C9: each phase fails-soft to exactly the sentinel `-1` and on
success (non-negative wall-clock inputs) returns a non-negative value; a
0 ms round trip pings 0; and the assembled result is exactly the record of
the three independent phase results, so a failed phase never prevents or
contaminates the others. -/
theorem claim9_fail_soft (pingOut : Option ℚ) (dlOut : Option (List ReadEvent))
    (ulOut : Option ℚ)
    (hping : ∀ rtt, pingOut = some rtt → 0 ≤ rtt)
    (hdl : ∀ events, dlOut = some events → ∀ e ∈ events, 0 ≤ e.time)
    (hul : ∀ d, ulOut = some d → 0 ≤ d) :
    ((runFullTest pingOut dlOut ulOut).ping = -1
        ∨ 0 ≤ (runFullTest pingOut dlOut ulOut).ping) ∧
    ((runFullTest pingOut dlOut ulOut).downloadSpeed = -1
        ∨ 0 ≤ (runFullTest pingOut dlOut ulOut).downloadSpeed) ∧
    ((runFullTest pingOut dlOut ulOut).uploadSpeed = -1
        ∨ 0 ≤ (runFullTest pingOut dlOut ulOut).uploadSpeed) ∧
    measurePing none = -1 ∧
    measurePing (some 0) = 0 ∧
    measureDownloadSpeed none = -1 ∧
    measureUploadSpeed none = -1 ∧
    runFullTest pingOut dlOut ulOut
      = ⟨measureDownloadSpeed dlOut, measureUploadSpeed ulOut,
          measurePing pingOut⟩ := by
  refine ⟨?_, ?_, ?_, rfl, ?_, rfl, rfl, rfl⟩
  · cases hp : pingOut with
    | none => exact Or.inl rfl
    | some rtt =>
      right
      show 0 ≤ measurePing (some rtt)
      exact jsRound_nonneg (hping rtt hp)
  · cases hd : dlOut with
    | none => exact Or.inl rfl
    | some events =>
      right
      show 0 ≤ measureDownloadSpeed (some events)
      have ht : 0 ≤ (readLoop events 0).endTime :=
        readLoop_endTime_nonneg events 0 (hdl events hd)
      exact roundTo2_nonneg (speedMbpsOf_nonneg _ (by positivity))
  · cases hu : ulOut with
    | none => exact Or.inl rfl
    | some d =>
      right
      show 0 ≤ measureUploadSpeed (some d)
      exact roundTo2_nonneg (speedMbpsOf_nonneg _ (hul d hu))
  · show measurePing (some 0) = 0
    norm_num [measurePing, jsRound_def]

/-- Claim C9, witness: a 0 ms ping with failed download and upload phases
yields ping 0 and the two `-1` sentinels in one assembled result. -/
theorem claim9_witness :
    (runFullTest (some 0) none none).ping = 0 ∧
    (runFullTest (some 0) none none).downloadSpeed = -1 ∧
    (runFullTest (some 0) none none).uploadSpeed = -1 := by
  have h := claim9_fail_soft (some 0) none none
    (fun r hr => by cases hr; exact le_refl 0)
    (fun evs hevs => by cases hevs) (fun d hd => by cases hd)
  exact ⟨h.2.2.2.2.1, rfl, rfl⟩

/-- Claim C10: a POST whose body has an absent or empty `ip` is answered
with status 400 and an error JSON body without contacting the upstream
provider; a body-parse throw and an upstream throw are answered with status
500 and an error JSON body instead of an unhandled exception. -/
theorem claim10_handler (body : VpnRequestBody)
    (hip : body.ip = none ∨ body.ip = some "") (upstream : Option IpwhoisData) :
    vpnDetectHandler (VpnRequest.post (some body)) upstream
        = ⟨400, true, false, none⟩ ∧
    vpnDetectHandler (VpnRequest.post none) upstream = ⟨500, true, false, none⟩ ∧
    (∀ s : String, s ≠ "" →
      vpnDetectHandler (VpnRequest.post (some ⟨some s⟩)) none
        = ⟨500, true, true, none⟩) := by
  refine ⟨?_, rfl, ?_⟩
  · rcases hip with h | h <;> simp [vpnDetectHandler, jsFalsyStr, h]
  · intro s hs
    have hb : (s == "") = false := by simp [hs]
    simp [vpnDetectHandler, jsFalsyStr, hb]

/-- Claim C10, witness: the 400 path at a missing ip and the 500 path at an
upstream throw, both concrete. -/
theorem claim10_witness :
    vpnDetectHandler (VpnRequest.post (some ⟨none⟩)) none
        = ⟨400, true, false, none⟩ ∧
    vpnDetectHandler (VpnRequest.post (some ⟨some "1.2.3.4"⟩)) none
        = ⟨500, true, true, none⟩ := by
  have h := claim10_handler ⟨none⟩ (Or.inl rfl) none
  exact ⟨h.1, h.2.2 "1.2.3.4" (by decide)⟩

end IPNexus
